import Mathlib

set_option maxHeartbeats 1000000
set_option linter.unusedVariables false

/-! Shallow embedding of the statement-import core of the rebalancer repository:
`src/app/modules/importer/models.py`, `src/app/modules/importer/service.py` and
`src/utils/merge_csv_tables.py`.  A spreadsheet is modelled as a grid of rows of
cells, a cell being `none` for a pandas NaN (empty) cell and `some s` for a text
cell.  All functions are executable. -/

/-- Lower-case one character the way Python `str.lower` acts on the alphabets the
broker statements use (ASCII Latin and Russian Cyrillic, including Ё). -/
def pyLowerChar (c : Char) : Char :=
  if 'A' ≤ c ∧ c ≤ 'Z' then Char.ofNat (c.toNat + 32)
  else if 'А' ≤ c ∧ c ≤ 'Я' then Char.ofNat (c.toNat + 32)
  else if c = 'Ё' then 'ё'
  else c

/-- Python `s.lower()`. -/
def pyLower (s : String) : String :=
  String.mk (s.toList.map pyLowerChar)

/-- Does the pattern occur at the very start of the text? -/
def listStartsWith : List Char → List Char → Bool
  | [], _ => true
  | _ :: _, [] => false
  | p :: ps, c :: cs => p == c && listStartsWith ps cs

/-- Does the pattern occur anywhere in the text? -/
def listContains (pat : List Char) : List Char → Bool
  | [] => listStartsWith pat []
  | c :: tl => listStartsWith pat (c :: tl) || listContains pat tl

/-- Python substring test `needle in hay`. -/
def containsSub (needle hay : String) : Bool :=
  listContains needle.toList hay.toList

/-- Python `s.startswith(p)`. -/
def pyStartsWith (p s : String) : Bool :=
  listStartsWith p.toList s.toList

def isWs (c : Char) : Bool := c.isWhitespace

/-- Python `s.strip()`: drop whitespace from both ends. -/
def pyStripList (cs : List Char) : List Char :=
  ((cs.dropWhile isWs).reverse.dropWhile isWs).reverse

/-- Python `s.strip()` on strings. -/
def pyStrip (s : String) : String := String.mk (pyStripList s.toList)

/-- Base-10 value of a list of decimal digit characters (Python `int(s)` for a
digit-only string). -/
def digitsToNat (cs : List Char) : Nat :=
  cs.foldl (fun a c => 10 * a + (c.toNat - 48)) 0

/-- `service.py` lines 195-196: `quantity_str = re.sub(r"\s+", "", quantity_str)`
then `int(quantity_str) if quantity_str.isdigit() else 0`.  Python `isdigit` is
false on the empty string. -/
def parse_quantity (s : String) : Nat :=
  let t := s.toList.filter (fun c => !isWs c)
  if !t.isEmpty && t.all Char.isDigit then digitsToNat t else 0

/-- Modelled from the spec (§4.3 / §8, for comparison with `parse_quantity`):
"strip all whitespace from quantity_raw; the result must be composed entirely of
decimal digits, otherwise quantity is treated as 0". -/
def quantity_spec (s : String) : Nat :=
  let t := s.toList.filter (fun c => !isWs c)
  if t ≠ [] ∧ t.all (fun c => c.isDigit) then digitsToNat t else 0

/-- `importer/models.py`: a security position parsed out of one statement row. -/
structure SecurityPosition where
  issuer : String
  security_type : String
  trading_code : String
  isin : String
  currency : Option String
  quantity : Nat
deriving DecidableEq

/-- `models.py` line 19: `"облигац" in self.security_type.lower()`. -/
def SecurityPosition.is_bond (p : SecurityPosition) : Bool :=
  containsSub "облигац" (pyLower p.security_type)

/-- `models.py` line 24: `"акц" in self.security_type.lower()`. -/
def SecurityPosition.is_stock (p : SecurityPosition) : Bool :=
  containsSub "акц" (pyLower p.security_type)

/-- `models.py` line 29: `self.security_type.lower() == "пиф"`. -/
def SecurityPosition.is_etf (p : SecurityPosition) : Bool :=
  pyLower p.security_type == "пиф"

/-- `importer/models.py`: a parsed broker statement. -/
structure BrokerStatement where
  account_number : String
  positions : List SecurityPosition
  statement_date : Option String
deriving DecidableEq

/-- `models.py` line 42: positions that classify as bonds. -/
def BrokerStatement.bonds (st : BrokerStatement) : List SecurityPosition :=
  st.positions.filter (fun p => p.is_bond)

/-- `models.py` line 47: positions that classify as stocks. -/
def BrokerStatement.stocks (st : BrokerStatement) : List SecurityPosition :=
  st.positions.filter (fun p => p.is_stock)

/-- `models.py` line 52: positions that classify as ETFs. -/
def BrokerStatement.etfs (st : BrokerStatement) : List SecurityPosition :=
  st.positions.filter (fun p => p.is_etf)

/-- `models.py` line 57: number of positions. -/
def BrokerStatement.total_positions (st : BrokerStatement) : Nat :=
  st.positions.length

/-- The dictionary returned by `ImportService.validate_statement`. -/
structure ValidationSummary where
  valid : Bool
  account_number : String
  total_positions : Nat
  bonds : Nat
  stocks : Nat
  etfs : Nat
deriving DecidableEq

/-- `service.py` lines 267-276: `ImportService.validate_statement`. -/
def validate_statement (st : BrokerStatement) : ValidationSummary :=
  { valid := true
    account_number := st.account_number
    total_positions := st.total_positions
    bonds := st.bonds.length
    stocks := st.stocks.length
    etfs := st.etfs.length }

/-- C2: `is_bond` holds iff the lower-cased `security_type` contains "облигац",
`is_stock` iff it contains "акц", `is_etf` iff it is exactly "пиф"; each is a
pure function of `security_type` alone, and a type matching none of the three
(e.g. "ETF Fund") yields all three predicates false. -/
theorem classification_substring_based :
    (∀ p : SecurityPosition,
        p.is_bond = containsSub "облигац" (pyLower p.security_type)
      ∧ p.is_stock = containsSub "акц" (pyLower p.security_type)
      ∧ p.is_etf = (pyLower p.security_type == "пиф"))
  ∧ (∀ iss tc isin cur q st,
        (SecurityPosition.mk iss st tc isin cur q).is_bond
          = (SecurityPosition.mk "" st "" "" none 0).is_bond
      ∧ (SecurityPosition.mk iss st tc isin cur q).is_stock
          = (SecurityPosition.mk "" st "" "" none 0).is_stock
      ∧ (SecurityPosition.mk iss st tc isin cur q).is_etf
          = (SecurityPosition.mk "" st "" "" none 0).is_etf)
  ∧ ((SecurityPosition.mk "X" "Государственная облигация" "" "" none 1).is_bond = true
      ∧ (SecurityPosition.mk "X" "Государственная облигация" "" "" none 1).is_stock = false
      ∧ (SecurityPosition.mk "X" "Государственная облигация" "" "" none 1).is_etf = false)
  ∧ ((SecurityPosition.mk "X" "Обычная акция" "" "" none 1).is_stock = true)
  ∧ ((SecurityPosition.mk "X" "ПИФ" "" "" none 1).is_etf = true)
  ∧ ((SecurityPosition.mk "X" "ETF Fund" "" "" none 1).is_bond = false
      ∧ (SecurityPosition.mk "X" "ETF Fund" "" "" none 1).is_stock = false
      ∧ (SecurityPosition.mk "X" "ETF Fund" "" "" none 1).is_etf = false) := by
  refine ⟨fun p => ⟨rfl, rfl, rfl⟩, fun iss tc isin cur q st => ⟨rfl, rfl, rfl⟩, ?_, ?_, ?_, ?_⟩
  · exact ⟨by decide, by decide, by decide⟩
  · decide
  · decide
  · exact ⟨by decide, by decide, by decide⟩

/-- C10: `validate_statement` always reports `valid = true`, copies the
statement's own account number and position count, and reports the lengths of
the derived bonds/stocks/etfs lists; in particular a statement with zero
positions and account number "UNKNOWN" is still reported valid. -/
theorem validate_statement_summary :
    (∀ st : BrokerStatement,
      validate_statement st =
        { valid := true
          account_number := st.account_number
          total_positions := st.positions.length
          bonds := (st.positions.filter (fun p => p.is_bond)).length
          stocks := (st.positions.filter (fun p => p.is_stock)).length
          etfs := (st.positions.filter (fun p => p.is_etf)).length })
  ∧ (validate_statement
      { account_number := "UNKNOWN", positions := [], statement_date := none }).valid = true :=
  ⟨fun st => rfl, rfl⟩

/-- A spreadsheet cell: `none` models a pandas NaN / empty cell. -/
abbrev Cell := Option String

abbrev GridRow := List Cell

abbrev Grid := List GridRow

def rowAt (df : Grid) (i : Nat) : GridRow := df.getD i []

/-- Cell `k` of a row as an optional string (`none` for NaN or a missing
column). -/
def cellOpt (r : GridRow) (k : Nat) : Option String :=
  match r.get? k with
  | some (some s) => some s
  | _ => none

/-- First-column text of row `i` the way `find_table_sections` reads it:
`str(row.iloc[0]) if pd.notna(row.iloc[0]) else ""`. -/
def cellStr (df : Grid) (i : Nat) : String :=
  match cellOpt (rowAt df i) 0 with
  | some s => s
  | none => ""

/-- First-column text of row `i` read without a notna guard, the way
`_find_section_end` does: `str(row_data.iloc[0])`, where `str` of NaN is the
text "nan". -/
def cellStrNan (df : Grid) (i : Nat) : String :=
  match cellOpt (rowAt df i) 0 with
  | some s => s
  | none => "nan"

/-- `service.py` line 185: `str(row_data.iloc[0]).strip() if not
pd.isna(row_data.iloc[0]) else ''`. -/
def extract_issuer (r : GridRow) : String :=
  match cellOpt r 0 with
  | some s => pyStrip s
  | none => ""

/-- `service.py` line 186: column 1, stripped, empty when absent or NaN. -/
def extract_security_type (r : GridRow) : String :=
  match cellOpt r 1 with
  | some s => pyStrip s
  | none => ""

/-- `service.py` line 187: column 2, stripped, empty when absent or NaN. -/
def extract_trading_code (r : GridRow) : String :=
  match cellOpt r 2 with
  | some s => pyStrip s
  | none => ""

/-- `service.py` line 188: column 3, stripped, empty when absent or NaN. -/
def extract_isin (r : GridRow) : String :=
  match cellOpt r 3 with
  | some s => pyStrip s
  | none => ""

/-- `service.py` line 189: column 4, stripped, `None` when absent or NaN. -/
def extract_currency_raw (r : GridRow) : Option String :=
  match cellOpt r 4 with
  | some s => some (pyStrip s)
  | none => none

/-- `service.py` line 192: the quantity cell, stripped, the text "0" when the
cell is absent or NaN. -/
def quantity_str_of_row (r : GridRow) : String :=
  match cellOpt r 5 with
  | some s => pyStrip s
  | none => "0"

/-- `service.py` lines 192-196: full quantity extraction for a row. -/
def extract_quantity (r : GridRow) : Nat :=
  parse_quantity (quantity_str_of_row r)

/-- `service.py` line 207: `currency if currency and currency != 'nan' else
None`. -/
def normalize_currency (c : Option String) : Option String :=
  match c with
  | some s => if s ≠ "" ∧ s ≠ "nan" then some s else none
  | none => none

/-- `service.py` lines 181-213: `_create_position_from_row`.  The required-field
check is line 199: `if not issuer or not isin or quantity <= 0: return None`. -/
def create_position_from_row (r : GridRow) : Option SecurityPosition :=
  if extract_issuer r = "" ∨ extract_isin r = "" ∨ extract_quantity r = 0 then none
  else some
    { issuer := extract_issuer r
      security_type := extract_security_type r
      trading_code := extract_trading_code r
      isin := extract_isin r
      currency := normalize_currency (extract_currency_raw r)
      quantity := extract_quantity r }

/-- Python `\w` on the alphabets in play (Latin, digits, underscore, Cyrillic). -/
def pyWordChar (c : Char) : Bool :=
  c.isAlphanum || c == '_' || ('а' ≤ c && c ≤ 'я') || ('А' ≤ c && c ≤ 'Я')
    || c == 'ё' || c == 'Ё'

/-- `re.search(lit + r"(\w+)", text)`: scan left to right for the first position
where the literal occurs followed by at least one word character; return the
maximal word-character run after the literal there. -/
def wordRunAfterLit (lit : List Char) : List Char → Option (List Char)
  | [] => none
  | c :: cs =>
    if listStartsWith lit (c :: cs) then
      (if ((c :: cs).drop lit.length).takeWhile pyWordChar ≠ [] then
        some (((c :: cs).drop lit.length).takeWhile pyWordChar)
      else wordRunAfterLit lit cs)
    else wordRunAfterLit lit cs

def searchTokenAfter (lit s : String) : Option String :=
  (wordRunAfterLit lit.toList s.toList).map String.mk

/-- The metadata cell `df.iloc[3, 0]` read by `_extract_account_number`:
`none` when the grid has no row 3 or the row has no column 0 (the Python code
raises there and the handler returns "UNKNOWN"); NaN reads as the text "nan". -/
def account_cell (df : Grid) : Option String :=
  match df.get? 3 with
  | none => none
  | some r =>
    match r.get? 0 with
    | none => none
    | some none => some "nan"
    | some (some s) => some s

/-- `service.py` lines 69-88: `_extract_account_number`, patterns
`код счёта: ([\w\d]+)` then `№(\w+)`, defaulting to "UNKNOWN". -/
def extract_account_number (df : Grid) : String :=
  match account_cell df with
  | none => "UNKNOWN"
  | some s =>
    match searchTokenAfter "код счёта: " s with
    | some t => t
    | none =>
      match searchTokenAfter "№" s with
      | some t => t
      | none => "UNKNOWN"

theorem filter_dropWhile_isWs (cs : List Char) :
    (cs.dropWhile isWs).filter (fun c => !isWs c) = cs.filter (fun c => !isWs c) := by
  induction cs with
  | nil => rfl
  | cons c tl ih =>
    by_cases h : isWs c
    · simp [List.dropWhile_cons, h, List.filter_cons, ih]
    · simp [List.dropWhile_cons, h, List.filter_cons]

theorem filter_pyStripList (cs : List Char) :
    (pyStripList cs).filter (fun c => !isWs c) = cs.filter (fun c => !isWs c) := by
  unfold pyStripList
  rw [List.filter_reverse, filter_dropWhile_isWs, List.filter_reverse,
    List.reverse_reverse, filter_dropWhile_isWs]

theorem toList_mk (cs : List Char) : (String.mk cs).toList = cs := rfl

theorem parse_quantity_pyStrip_eq_spec (s : String) :
    parse_quantity (pyStrip s) = quantity_spec s := by
  unfold parse_quantity quantity_spec pyStrip
  rw [toList_mk, filter_pyStripList]
  by_cases hnil : s.toList.filter (fun c => !isWs c) = []
  · simp [hnil]
  · by_cases hall : (s.toList.filter (fun c => !isWs c)).all Char.isDigit = true
    · simp [hnil, hall, List.isEmpty_iff]
    · simp [hnil, hall, List.isEmpty_iff]

/-- C7: quantity parsing removes all whitespace, then yields the represented
integer when only decimal digits remain and 0 otherwise; "1 234" parses to 1234,
and a row whose quantity cell is "12,5" resolves to quantity 0 and is dropped. -/
theorem quantity_parsing_behaviour :
    (∀ s : String, parse_quantity (pyStrip s) = quantity_spec s)
  ∧ parse_quantity "1 234" = 1234
  ∧ extract_quantity
      [some "Сбер", some "Обычная акция", some "SBER03",
       some "RU0009029540", some "RUB", some "12,5"] = 0
  ∧ create_position_from_row
      [some "Сбер", some "Обычная акция", some "SBER03",
       some "RU0009029540", some "RUB", some "12,5"] = none := by
  refine ⟨parse_quantity_pyStrip_eq_spec, by decide, by decide, ?_⟩
  have h : extract_quantity
      [some "Сбер", some "Обычная акция", some "SBER03",
       some "RU0009029540", some "RUB", some "12,5"] = 0 := by decide
  unfold create_position_from_row
  rw [if_pos]
  exact Or.inr (Or.inr h)

/-- C1: `_create_position_from_row` produces a position iff the extracted issuer
and isin are non-empty and the parsed quantity is positive; otherwise it yields
`none` (the row is dropped, no exception escapes). -/
theorem position_accepted_iff_required_fields (r : GridRow) :
    ((create_position_from_row r).isSome = true) ↔
      (extract_issuer r ≠ "" ∧ extract_isin r ≠ "" ∧ 0 < extract_quantity r) := by
  unfold create_position_from_row
  by_cases h : extract_issuer r = "" ∨ extract_isin r = "" ∨ extract_quantity r = 0
  · rw [if_pos h]
    simp only [Option.isSome_none, Bool.false_eq_true, false_iff]
    intro hc
    rcases hc with ⟨h1, h2, h3⟩
    rcases h with h | h | h
    · exact h1 h
    · exact h2 h
    · omega
  · rw [if_neg h]
    simp only [Option.isSome_some, true_iff]
    push_neg at h
    exact ⟨h.1, h.2.1, by omega⟩

/-- C8: the account number comes from the metadata cell at row 3 column 0 by
trying the pattern "код счёта: <token>" first and the pattern "№<token>"
second, returning the first match; any grid where the cell is absent or neither
pattern matches yields the literal "UNKNOWN", and the function is total. -/
theorem account_number_extraction :
    (∀ df : Grid,
        (account_cell df = none ∧ extract_account_number df = "UNKNOWN")
      ∨ (∃ s, account_cell df = some s ∧
          ((∃ t, searchTokenAfter "код счёта: " s = some t ∧ extract_account_number df = t)
          ∨ (searchTokenAfter "код счёта: " s = none ∧
              (∃ t, searchTokenAfter "№" s = some t ∧ extract_account_number df = t))
          ∨ (searchTokenAfter "код счёта: " s = none ∧ searchTokenAfter "№" s = none ∧
              extract_account_number df = "UNKNOWN"))))
  ∧ extract_account_number
      [[], [], [], [some "Договор 123, код счёта: 40817810R от 01.01.2020"]] = "40817810R"
  ∧ extract_account_number
      [[], [], [], [some "Генеральное соглашение №ABC123/45"]] = "ABC123"
  ∧ extract_account_number [[some "x"]] = "UNKNOWN"
  ∧ extract_account_number [[], [], [], [none]] = "UNKNOWN" := by
  refine ⟨?_, by decide, by decide, by decide, by decide⟩
  intro df
  cases hc : account_cell df with
  | none =>
    exact Or.inl ⟨rfl, by simp [extract_account_number, hc]⟩
  | some s =>
    refine Or.inr ⟨s, rfl, ?_⟩
    cases h1 : searchTokenAfter "код счёта: " s with
    | some t =>
      exact Or.inl ⟨t, rfl, by simp [extract_account_number, hc, h1]⟩
    | none =>
      cases h2 : searchTokenAfter "№" s with
      | some t =>
        exact Or.inr (Or.inl ⟨rfl, t, rfl, by simp [extract_account_number, hc, h1, h2]⟩)
      | none =>
        exact Or.inr (Or.inr ⟨rfl, rfl, by simp [extract_account_number, hc, h1, h2]⟩)

/-- `merge_csv_tables.py` lines 31-32 / 43-44: strip one pair of enclosing
double quotes. -/
def stripQuotes (s : String) : String :=
  if s.toList.head? = some '"' ∧ s.toList.getLast? = some '"' then
    String.mk ((s.toList.drop 1).dropLast)
  else s

/-- `merge_csv_tables.py` line 21: a header-marker row, first cell exactly
"Эмитент". -/
def isHeaderRow (df : Grid) (i : Nat) : Bool :=
  cellStr df i == "Эмитент"

/-- `merge_csv_tables.py` line 50: a terminator row. -/
def isTermRow (df : Grid) (i : Nat) : Bool :=
  containsSub "Итого по разделу" (cellStr df i)
    || containsSub "Итого по счету" (cellStr df i)

/-- `merge_csv_tables.py` lines 37-41: a first cell usable as a section label in
the backward window. -/
def goodLabelCell (df : Grid) (j : Nat) : Bool :=
  cellStr df j != "" && !pyStartsWith "Эмитент" (cellStr df j)
    && !pyStartsWith "Итого" (cellStr df j) && pyStrip (cellStr df j) != ""

/-- `merge_csv_tables.py` lines 35-45: the `for j in range(max(0, i-3), i)` loop
with its `break`, written with the remaining iteration count as structural
fuel. -/
def labelLoopFuel (df : Grid) : Nat → Nat → String
  | 0, _ => "Unknown"
  | fuel + 1, j =>
    if goodLabelCell df j then stripQuotes (pyStrip (cellStr df j))
    else labelLoopFuel df fuel (j + 1)

def labelLoop (df : Grid) (i j : Nat) : String :=
  labelLoopFuel df (i - j) j

/-- `merge_csv_tables.py` lines 25-45: label inference for the section opened by
the header marker at row `i`. -/
def inferLabel (df : Grid) (i : Nat) : String :=
  if i = 0 then "Unknown"
  else if cellStr df (i - 1) != "" && pyStrip (cellStr df (i - 1)) != "" then
    stripQuotes (pyStrip (cellStr df (i - 1)))
  else labelLoop df i (i - 3)

/-- Locator state: the currently open section (label, start row) and the spans
already emitted. -/
structure LocState where
  current : Option (String × Nat)
  sections : List (String × Nat × Nat)
deriving DecidableEq

/-- One iteration of the `for i, row in df.iterrows()` loop of
`find_table_sections`. -/
def locStep (df : Grid) (st : LocState) (i : Nat) : LocState :=
  if isHeaderRow df i then
    { current := some (inferLabel df i, i + 1)
      sections :=
        match st.current with
        | some (l, s) => st.sections ++ [(l, s, i - 1)]
        | none => st.sections }
  else if isTermRow df i then
    match st.current with
    | some (l, s) => { current := none, sections := st.sections ++ [(l, s, i - 1)] }
    | none => st
  else st

def locRun (df : Grid) (st : LocState) (idxs : List Nat) : LocState :=
  idxs.foldl (locStep df) st

/-- `merge_csv_tables.py` lines 61-64: a first cell acceptable as the last data
row during the closing backward scan. -/
def goodLastCell (df : Grid) (j : Nat) : Bool :=
  cellStr df j != "" && !pyStartsWith "Итого" (cellStr df j)
    && !pyStartsWith "Дата составления" (cellStr df j) && pyStrip (cellStr df j) != ""

/-- `merge_csv_tables.py` lines 58-66: `for j in range(len(df)-1, current_start-1,
-1)` scanning backward for the last data row, defaulting to `len(df)-1`. -/
def lastDataRow (df : Grid) (s : Nat) : Nat :=
  match ((List.range' s (df.length - s)).reverse).find? (goodLastCell df) with
  | some j => j
  | none => df.length - 1

/-- `merge_csv_tables.py` lines 56-67: close the still-open section at stream
end. -/
def locFlush (df : Grid) (st : LocState) : List (String × Nat × Nat) :=
  match st.current with
  | some (l, s) => st.sections ++ [(l, s, lastDataRow df s)]
  | none => st.sections

/-- `merge_csv_tables.py` lines 10-69: `find_table_sections`. -/
def find_table_sections (df : Grid) : List (String × Nat × Nat) :=
  locFlush df (locRun df { current := none, sections := [] } (List.range df.length))

/-- Locator state reached after processing rows `0 .. i-1`. -/
def stateAt (df : Grid) (i : Nat) : LocState :=
  locRun df { current := none, sections := [] } (List.range i)

/-- `service.py` lines 217-220: does any cell of the row contain the text? -/
def row_has_text (r : GridRow) (t : String) : Bool :=
  r.any (fun c =>
    match c with
    | some s => containsSub t s
    | none => false)

/-- `service.py` lines 215-221: `_find_section_start`. -/
def find_section_start (df : Grid) (t : String) : Option Nat :=
  (List.range df.length).find? (fun i => row_has_text (rowAt df i) t)

/-- `service.py` lines 244-250: `_find_row_with_text` (same scan). -/
def find_row_with_text (df : Grid) (t : String) : Option Nat :=
  (List.range df.length).find? (fun i => row_has_text (rowAt df i) t)

/-- `row_data.isna().all()`: every cell of the row is NaN. -/
def isBlankRow (df : Grid) (i : Nat) : Bool :=
  (rowAt df i).all (fun c => c.isNone)

/-- `service.py` lines 230-240: the three conditions ending a section. -/
def sectionEndCond (df : Grid) (i : Nat) : Bool :=
  isBlankRow df i || containsSub "Итого" (cellStrNan df i)
    || containsSub "Сведения о ценных бумагах" (cellStrNan df i)

/-- `service.py` lines 223-242: `_find_section_end`, the first row at or after
`i` satisfying an end condition, else the row count. -/
def findSectionEndFrom (df : Grid) (i : Nat) : Nat :=
  if h : i < df.length then
    (if sectionEndCond df i then i else findSectionEndFrom df (i + 1))
  else df.length
termination_by df.length - i

/-- `service.py` line 126: `str(row_data.iloc[1]) if len(row_data) > 1 else ''`
(note: no NaN guard, so a NaN reads as the text "nan"). -/
def bond_type_cell (r : GridRow) : String :=
  match r.get? 1 with
  | some (some s) => s
  | some none => "nan"
  | none => ""

/-- `service.py` lines 104-139: `_extract_bonds`. -/
def extract_bonds (df : Grid) : List SecurityPosition :=
  match find_section_start df "Сведения о ценных бумагах" with
  | none => []
  | some start =>
    (List.range' (start + 1) (findSectionEndFrom df (start + 2) - (start + 1))).filterMap
      (fun i =>
        match (rowAt df i).get? 0 with
        | none => none
        | some none => none
        | some (some c0) =>
          if containsSub "Эмитент" c0 then none
          else if !containsSub "облигац" (pyLower (bond_type_cell (rowAt df i))) then none
          else create_position_from_row (rowAt df i))

/-- `service.py` lines 158-177: the stocks/ETF row loop with its `break` on an
"Итого" row. -/
def stocks_loop (df : Grid) (i : Nat) : List SecurityPosition :=
  if h : i < df.length then
    (match (rowAt df i).get? 0 with
     | none => stocks_loop df (i + 1)
     | some none => stocks_loop df (i + 1)
     | some (some c0) =>
       if containsSub "Эмитент" c0 then stocks_loop df (i + 1)
       else if containsSub "Итого" c0 then []
       else
         match create_position_from_row (rowAt df i) with
         | some p => p :: stocks_loop df (i + 1)
         | none => stocks_loop df (i + 1))
  else []
termination_by df.length - i

/-- `service.py` lines 141-179: `_extract_stocks_and_etfs`.  In the fallback
branch Python sets `start_row` to the found row minus 1 and then loops from
`start_row + 1`, i.e. from the found row itself. -/
def extract_stocks_and_etfs (df : Grid) : List SecurityPosition :=
  match find_section_start df "Сведения о ценных бумагах, Classica" with
  | some s => stocks_loop df (s + 1)
  | none =>
    match find_row_with_text df "Advanced Micro Devices" with
    | some r => stocks_loop df r
    | none => []

/-- `service.py` lines 90-102: `_extract_positions`. -/
def extract_positions (df : Grid) : List SecurityPosition :=
  extract_bonds df ++ extract_stocks_and_etfs df

/-- `service.py` lines 26-44: a successful parse assembles the account number
and the extracted positions. -/
def parse_statement (df : Grid) : BrokerStatement :=
  { account_number := extract_account_number df
    positions := extract_positions df
    statement_date := none }

/-- Python `s.strip('"')`: drop every double quote from both ends. -/
def stripQuoteChars (s : String) : String :=
  String.mk (((s.toList.dropWhile (fun c => c == '"')).reverse.dropWhile
    (fun c => c == '"')).reverse)

/-- `merge_csv_tables.py` lines 106-111: one output cell. -/
def clean_cell_value (c : Cell) : String :=
  match c with
  | none => ""
  | some s => stripQuoteChars (pyStrip s)

/-- `merge_csv_tables.py` lines 103-115: the six cleaned cells plus the section
label. -/
def extract_row_data (r : GridRow) (section_name : String) : List String :=
  ((List.range 6).map (fun j =>
    match r.get? j with
    | some c => clean_cell_value c
    | none => "")) ++ [section_name]

/-- `merge_csv_tables.py` lines 72-119: `extract_table_data`. -/
def extract_table_data (df : Grid) (sections : List (String × Nat × Nat)) :
    List (List String) :=
  (sections.map (fun sec =>
    (List.range' sec.2.1 (min (sec.2.2 + 1) df.length - sec.2.1)).filterMap (fun i =>
      match cellOpt (rowAt df i) 0 with
      | none => none
      | some c0 =>
        if pyStrip c0 = "" then none
        else if containsSub "Итого" c0 then none
        else some (extract_row_data (rowAt df i) sec.1)))).flatten

def merge_error_msg : String := "Не найдено секций с данными для объединения"

/-- `merge_csv_tables.py` lines 140-168: the decision made by
`merge_csv_tables` once the grid is loaded — `raise ValueError` when no
sections are found, otherwise the merged table. -/
def merge_csv_tables (df : Grid) : Except String (List (List String)) :=
  if find_table_sections df = [] then Except.error merge_error_msg
  else Except.ok (extract_table_data df (find_table_sections df))

theorem range'_split (a : Nat) : ∀ s b : Nat,
    List.range' s (a + b) = List.range' s a ++ List.range' (s + a) b := by
  induction a with
  | zero => intro s b; simp [List.range']
  | succ n ih =>
    intro s b
    have h1 : n + 1 + b = (n + b) + 1 := by omega
    rw [h1]
    show s :: List.range' (s + 1) (n + b) = (s :: List.range' (s + 1) n) ++ List.range' (s + (n + 1)) b
    rw [List.cons_append, ih (s + 1) b]
    have h2 : s + 1 + n = s + (n + 1) := by omega
    rw [h2]

theorem mem_range'_bounds : ∀ {m s k : Nat}, k ∈ List.range' s m → s ≤ k ∧ k < s + m := by
  intro m
  induction m with
  | zero => intro s k h; simp [List.range'] at h
  | succ n ih =>
    intro s k h
    rw [show List.range' s (n + 1) = s :: List.range' (s + 1) n from rfl] at h
    rcases List.mem_cons.mp h with h | h
    · omega
    · have := ih h
      omega

theorem locRun_nil (df : Grid) (st : LocState) : locRun df st [] = st := rfl

theorem locRun_cons (df : Grid) (st : LocState) (i : Nat) (idxs : List Nat) :
    locRun df st (i :: idxs) = locRun df (locStep df st i) idxs := rfl

theorem locRun_append (df : Grid) (st : LocState) (a b : List Nat) :
    locRun df st (a ++ b) = locRun df (locRun df st a) b := by
  simp [locRun, List.foldl_append]

theorem locStep_skip {df : Grid} {i : Nat} (st : LocState)
    (hh : isHeaderRow df i = false) (ht : isTermRow df i = false) :
    locStep df st i = st := by
  simp [locStep, hh, ht]

theorem locRun_skip {df : Grid} {idxs : List Nat} (st : LocState)
    (h : ∀ k ∈ idxs, isHeaderRow df k = false ∧ isTermRow df k = false) :
    locRun df st idxs = st := by
  induction idxs generalizing st with
  | nil => rfl
  | cons i tl ih =>
    rw [locRun_cons, locStep_skip st (h i (List.mem_cons_self i tl)).1
      (h i (List.mem_cons_self i tl)).2]
    exact ih st (fun k hk => h k (List.mem_cons_of_mem i hk))

theorem locStep_header {df : Grid} {i : Nat} (st : LocState)
    (hh : isHeaderRow df i = true) :
    (locStep df st i).current = some (inferLabel df i, i + 1) := by
  simp [locStep, hh]

theorem locStep_header_sections_open {df : Grid} {i : Nat} {st : LocState}
    {l : String} {s : Nat} (hh : isHeaderRow df i = true)
    (hc : st.current = some (l, s)) :
    (locStep df st i).sections = st.sections ++ [(l, s, i - 1)] := by
  simp [locStep, hh, hc]

theorem locStep_term {df : Grid} {i : Nat} {st : LocState} {l : String} {s : Nat}
    (hh : isHeaderRow df i = false) (ht : isTermRow df i = true)
    (hc : st.current = some (l, s)) :
    locStep df st i = { current := none, sections := st.sections ++ [(l, s, i - 1)] } := by
  simp [locStep, hh, ht, hc]

theorem locStep_sections_mono (df : Grid) (st : LocState) (i : Nat) :
    ∃ t, (locStep df st i).sections = st.sections ++ t := by
  by_cases hh : isHeaderRow df i = true
  · cases hc : st.current with
    | none => exact ⟨[], by simp [locStep, hh, hc]⟩
    | some ls => exact ⟨[(ls.1, ls.2, i - 1)], by simp [locStep, hh, hc]⟩
  · rw [Bool.not_eq_true] at hh
    by_cases ht : isTermRow df i = true
    · cases hc : st.current with
      | none => exact ⟨[], by simp [locStep, hh, ht, hc]⟩
      | some ls => exact ⟨[(ls.1, ls.2, i - 1)], by simp [locStep, hh, ht, hc]⟩
    · rw [Bool.not_eq_true] at ht
      exact ⟨[], by simp [locStep_skip st hh ht]⟩

theorem locRun_sections_mono (df : Grid) (idxs : List Nat) : ∀ st : LocState,
    ∃ t, (locRun df st idxs).sections = st.sections ++ t := by
  induction idxs with
  | nil => intro st; exact ⟨[], by simp [locRun_nil]⟩
  | cons i tl ih =>
    intro st
    obtain ⟨t1, ht1⟩ := locStep_sections_mono df st i
    obtain ⟨t2, ht2⟩ := ih (locStep df st i)
    exact ⟨t1 ++ t2, by rw [locRun_cons, ht2, ht1, List.append_assoc]⟩

theorem locFlush_sections_mono (df : Grid) (st : LocState) :
    ∃ t, locFlush df st = st.sections ++ t := by
  cases hc : st.current with
  | none => exact ⟨[], by simp [locFlush, hc]⟩
  | some ls => exact ⟨[(ls.1, ls.2, lastDataRow df ls.2)], by simp [locFlush, hc]⟩

theorem mem_final_of_mem_sections {df : Grid} {st : LocState} {idxs : List Nat}
    {x : String × Nat × Nat} (h : x ∈ st.sections) :
    x ∈ locFlush df (locRun df st idxs) := by
  obtain ⟨t1, ht1⟩ := locRun_sections_mono df idxs st
  obtain ⟨t2, ht2⟩ := locFlush_sections_mono df (locRun df st idxs)
  rw [ht2, ht1, List.append_assoc]
  exact List.mem_append_left _ h

theorem locOpen_mem_final {df : Grid} (idxs : List Nat) : ∀ (st : LocState)
    {l : String} {s : Nat}, st.current = some (l, s) →
    ∃ e, (l, s, e) ∈ locFlush df (locRun df st idxs) := by
  induction idxs with
  | nil =>
    intro st l s h
    refine ⟨lastDataRow df s, ?_⟩
    simp [locRun_nil, locFlush, h]
  | cons i tl ih =>
    intro st l s h
    by_cases hh : isHeaderRow df i = true
    · refine ⟨i - 1, ?_⟩
      rw [locRun_cons]
      exact mem_final_of_mem_sections (by
        rw [locStep_header_sections_open hh h]
        exact List.mem_append_right _ (List.mem_singleton_self _))
    · rw [Bool.not_eq_true] at hh
      by_cases ht : isTermRow df i = true
      · refine ⟨i - 1, ?_⟩
        rw [locRun_cons]
        exact mem_final_of_mem_sections (by
          rw [locStep_term hh ht h]
          exact List.mem_append_right _ (List.mem_singleton_self _))
      · rw [Bool.not_eq_true] at ht
        rw [locRun_cons, locStep_skip st hh ht]
        exact ih st h

theorem stateAt_succ (df : Grid) (i : Nat) :
    stateAt df (i + 1) = locStep df (stateAt df i) i := by
  unfold stateAt
  rw [List.range_succ, locRun_append]
  rfl

theorem find_table_sections_eq_flush (df : Grid) :
    find_table_sections df = locFlush df (stateAt df df.length) := rfl

theorem locRun_stateAt_to (df : Grid) (i n : Nat) (h : i ≤ n) :
    locRun df (stateAt df i) (List.range' i (n - i)) = stateAt df n := by
  unfold stateAt
  rw [List.range_eq_range', List.range_eq_range', ← locRun_append]
  congr 1
  have hsplit := range'_split i 0 (n - i)
  rw [show (0 : Nat) + i = i from by omega] at hsplit
  rw [← hsplit]
  congr 1
  omega

/-- C6: when two header-marker rows occur with no header or terminator row
strictly between them, the locator closes the earlier span at the row
immediately preceding the later header marker and opens a new span starting
right after the later marker; being a total function it raises no exception. -/
theorem double_header_closes_prior_span (df : Grid) (i j : Nat)
    (hij : i < j) (hj : j < df.length)
    (hhi : isHeaderRow df i = true) (hhj : isHeaderRow df j = true)
    (hmid : ∀ k, i < k → k < j → isHeaderRow df k = false ∧ isTermRow df k = false) :
    (inferLabel df i, i + 1, j - 1) ∈ find_table_sections df
    ∧ ∃ e, (inferLabel df j, j + 1, e) ∈ find_table_sections df := by
  have h1 : (stateAt df (i + 1)).current = some (inferLabel df i, i + 1) := by
    rw [stateAt_succ]
    exact locStep_header (stateAt df i) hhi
  have h2 : stateAt df j = stateAt df (i + 1) := by
    rw [← locRun_stateAt_to df (i + 1) j (by omega)]
    apply locRun_skip
    intro k hk
    have hb := mem_range'_bounds hk
    exact hmid k (by omega) (by omega)
  have h2c : (stateAt df j).current = some (inferLabel df i, i + 1) := by
    rw [h2]; exact h1
  have h3c : (stateAt df (j + 1)).current = some (inferLabel df j, j + 1) := by
    rw [stateAt_succ]
    exact locStep_header (stateAt df j) hhj
  have h3s : (stateAt df (j + 1)).sections
      = (stateAt df j).sections ++ [(inferLabel df i, i + 1, j - 1)] := by
    rw [stateAt_succ]
    exact locStep_header_sections_open hhj h2c
  have hmem : (inferLabel df i, i + 1, j - 1) ∈ (stateAt df (j + 1)).sections := by
    rw [h3s]
    exact List.mem_append_right _ (List.mem_singleton_self _)
  have hn : stateAt df df.length
      = locRun df (stateAt df (j + 1)) (List.range' (j + 1) (df.length - (j + 1))) :=
    (locRun_stateAt_to df (j + 1) df.length (by omega)).symm
  constructor
  · rw [find_table_sections_eq_flush, hn]
    exact mem_final_of_mem_sections hmem
  · obtain ⟨e, he⟩ :=
      locOpen_mem_final (List.range' (j + 1) (df.length - (j + 1))) (stateAt df (j + 1)) h3c
    refine ⟨e, ?_⟩
    rw [find_table_sections_eq_flush, hn]
    exact he

/-- Witness for C6 on the grid [Эмитент, AAA, Эмитент, BBB]: the first span is
("Unknown", 1, 1) and a span starting at row 3 is produced. -/
theorem double_header_closes_prior_span_witness :
    (inferLabel [[some "Эмитент"], [some "AAA"], [some "Эмитент"], [some "BBB"]] 0, 1, 1)
      ∈ find_table_sections [[some "Эмитент"], [some "AAA"], [some "Эмитент"], [some "BBB"]]
    ∧ ∃ e, (inferLabel [[some "Эмитент"], [some "AAA"], [some "Эмитент"], [some "BBB"]] 2, 3, e)
      ∈ find_table_sections [[some "Эмитент"], [some "AAA"], [some "Эмитент"], [some "BBB"]] :=
  double_header_closes_prior_span
    [[some "Эмитент"], [some "AAA"], [some "Эмитент"], [some "BBB"]] 0 2
    (by decide) (by decide) (by decide) (by decide)
    (by
      intro k h1 h2
      have hk : k = 1 := by omega
      subst hk
      exact ⟨by decide, by decide⟩)

/-- Well-formed span lists: each span may be empty by at most one row
(`start ≤ end + 1`), starts strictly increase, and consecutive spans do not
overlap (each next start exceeds both the previous start and the previous
end). -/
def spansOk : Nat → List (String × Nat × Nat) → Prop
  | _, [] => True
  | lo, sp :: rest =>
    lo ≤ sp.2.1 ∧ sp.2.1 ≤ sp.2.2 + 1 ∧ spansOk (max (sp.2.1 + 1) (sp.2.2 + 1)) rest

/-- `spansOk` together with an upper bound on where the next span may start. -/
def chainLE : Nat → List (String × Nat × Nat) → Nat → Prop
  | lo, [], hi => lo ≤ hi
  | lo, sp :: rest, hi =>
    lo ≤ sp.2.1 ∧ sp.2.1 ≤ sp.2.2 + 1 ∧ chainLE (max (sp.2.1 + 1) (sp.2.2 + 1)) rest hi

theorem chainLE_mono : ∀ {ss : List (String × Nat × Nat)} {lo hi hi2 : Nat},
    chainLE lo ss hi → hi ≤ hi2 → chainLE lo ss hi2 := by
  intro ss
  induction ss with
  | nil => intro lo hi hi2 h hh; exact le_trans h hh
  | cons sp rest ih =>
    intro lo hi hi2 h hh
    exact ⟨h.1, h.2.1, ih h.2.2 hh⟩

theorem chainLE_snoc : ∀ {ss : List (String × Nat × Nat)} {lo hi s e : Nat} {l : String},
    chainLE lo ss hi → hi ≤ s → s ≤ e + 1 →
    chainLE lo (ss ++ [(l, s, e)]) (max (s + 1) (e + 1)) := by
  intro ss
  induction ss with
  | nil =>
    intro lo hi s e l h h1 h2
    exact ⟨le_trans h h1, h2, le_refl _⟩
  | cons sp rest ih =>
    intro lo hi s e l h h1 h2
    exact ⟨h.1, h.2.1, ih h.2.2 h1 h2⟩

theorem chainLE_to_spansOk : ∀ {ss : List (String × Nat × Nat)} {lo hi : Nat},
    chainLE lo ss hi → spansOk lo ss := by
  intro ss
  induction ss with
  | nil => intro lo hi h; trivial
  | cons sp rest ih =>
    intro lo hi h
    exact ⟨h.1, h.2.1, ih h.2.2⟩

/-- Invariant carried by the locator while scanning: emitted spans form a
well-formed chain, and the open section (when any) starts at a positive row not
beyond the next row to process. -/
def locInv (df : Grid) (i : Nat) (st : LocState) : Prop :=
  match st.current with
  | some ls => chainLE 0 st.sections ls.2 ∧ 1 ≤ ls.2 ∧ ls.2 ≤ i
  | none => chainLE 0 st.sections i

theorem locStep_inv (df : Grid) (i : Nat) (st : LocState)
    (h : locInv df i st) : locInv df (i + 1) (locStep df st i) := by
  by_cases hh : isHeaderRow df i = true
  · cases hc : st.current with
    | none =>
      simp only [locInv, hc] at h
      simp only [locInv, locStep, hh, if_pos, hc]
      exact ⟨chainLE_mono h (by omega), by omega, le_refl _⟩
    | some ls =>
      simp only [locInv, hc] at h
      obtain ⟨hch, hs1, hsi⟩ := h
      simp only [locInv, locStep, hh, if_pos, hc]
      refine ⟨?_, by omega, le_refl _⟩
      have snoc := chainLE_snoc (l := ls.1) (e := i - 1) hch (le_refl _) (by omega)
      exact chainLE_mono snoc (Nat.max_le.mpr ⟨by omega, by omega⟩)
  · rw [Bool.not_eq_true] at hh
    by_cases ht : isTermRow df i = true
    · cases hc : st.current with
      | none =>
        simp only [locInv, hc] at h
        have hstep : locStep df st i = st := by simp [locStep, hh, ht, hc]
        rw [hstep]
        simp only [locInv, hc]
        exact chainLE_mono h (by omega)
      | some ls =>
        simp only [locInv, hc] at h
        obtain ⟨hch, hs1, hsi⟩ := h
        rw [locStep_term hh ht (l := ls.1) (s := ls.2) (by rw [hc])]
        simp only [locInv]
        have snoc := chainLE_snoc (l := ls.1) (e := i - 1) hch (le_refl _) (by omega)
        exact chainLE_mono snoc (Nat.max_le.mpr ⟨by omega, by omega⟩)
    · rw [Bool.not_eq_true] at ht
      rw [locStep_skip st hh ht]
      cases hc : st.current with
      | none =>
        simp only [locInv, hc] at h
        simp only [locInv, hc]
        exact chainLE_mono h (by omega)
      | some ls =>
        simp only [locInv, hc] at h
        simp only [locInv, hc]
        exact ⟨h.1, h.2.1, by omega⟩

theorem locRun_range'_inv (df : Grid) : ∀ (k i : Nat) (st : LocState),
    locInv df i st → locInv df (i + k) (locRun df st (List.range' i k)) := by
  intro k
  induction k with
  | zero => intro i st h; simpa [locRun_nil] using h
  | succ n ih =>
    intro i st h
    rw [show List.range' i (n + 1) = i :: List.range' (i + 1) n from rfl, locRun_cons]
    have hstep := ih (i + 1) (locStep df st i) (locStep_inv df i st h)
    rw [show i + (n + 1) = (i + 1) + n from by omega]
    exact hstep

theorem lastDataRow_ge (df : Grid) (s : Nat) (h1 : 1 ≤ s) (h2 : s ≤ df.length) :
    s ≤ lastDataRow df s + 1 := by
  cases hf : ((List.range' s (df.length - s)).reverse).find? (goodLastCell df) with
  | none =>
    have hred : lastDataRow df s = df.length - 1 := by unfold lastDataRow; rw [hf]
    omega
  | some j =>
    have hred : lastDataRow df s = j := by unfold lastDataRow; rw [hf]
    have hj : j ∈ (List.range' s (df.length - s)).reverse := List.mem_of_find?_eq_some hf
    rw [List.mem_reverse] at hj
    have hb := mem_range'_bounds hj
    omega

theorem locFlush_spansOk (df : Grid) (st : LocState)
    (h : locInv df df.length st) : spansOk 0 (locFlush df st) := by
  cases hc : st.current with
  | none =>
    simp only [locInv, hc] at h
    simp only [locFlush, hc]
    exact chainLE_to_spansOk h
  | some ls =>
    simp only [locInv, hc] at h
    obtain ⟨hch, h1, h2⟩ := h
    simp only [locFlush, hc]
    exact chainLE_to_spansOk
      (chainLE_snoc hch (le_refl _) (lastDataRow_ge df ls.2 h1 h2))

/-- C3 (amended): every span list produced by `find_table_sections` is
well-formed: each span has `start_row ≤ end_row + 1`, start rows strictly
increase, and spans are pairwise non-overlapping.  (The claim's stronger
`start_row ≤ end_row` fails: see the counterexample.) -/
theorem section_spans_wellformed (df : Grid) : spansOk 0 (find_table_sections df) := by
  rw [find_table_sections_eq_flush]
  apply locFlush_spansOk
  have h0 : locInv df 0 { current := none, sections := [] } := by
    simp [locInv, chainLE]
  unfold stateAt
  rw [List.range_eq_range']
  have hrun := locRun_range'_inv df df.length 0 { current := none, sections := [] } h0
  simpa using hrun

/-- C3 counterexample: on the grid [Эмитент, Итого по разделу] the locator
returns the single span ("Unknown", 1, 0), whose start row 1 exceeds its end
row 0, refuting `start_row ≤ end_row`. -/
theorem span_start_le_end_counterexample :
    find_table_sections [[some "Эмитент"], [some "Итого по разделу"]] = [("Unknown", 1, 0)]
    ∧ ¬((1 : Nat) ≤ 0) :=
  ⟨by decide, by omega⟩

theorem blankRow_cellStr {df : Grid} {i : Nat} (h : isBlankRow df i = true) :
    cellStr df i = "" := by
  unfold isBlankRow at h
  cases hr : rowAt df i with
  | nil => simp [cellStr, cellOpt, hr]
  | cons c tl =>
    rw [hr] at h
    have hc : c.isNone = true := by
      have := List.all_eq_true.mp h c (List.mem_cons_self c tl)
      exact this
    rw [Option.isNone_iff_eq_none] at hc
    subst hc
    simp [cellStr, cellOpt, hr]

theorem blankRow_not_header {df : Grid} {i : Nat} (h : isBlankRow df i = true) :
    isHeaderRow df i = false := by
  unfold isHeaderRow
  rw [blankRow_cellStr h]
  decide

theorem blankRow_not_term {df : Grid} {i : Nat} (h : isBlankRow df i = true) :
    isTermRow df i = false := by
  unfold isTermRow
  rw [blankRow_cellStr h]
  decide

/-- C5 (amended): a terminator row ("Итого по разделу" / "Итого по счету" in
the first cell) closes the open section with end row one less than the
terminator row and resets the locator; a fully blank row, however, is neither
a header nor a terminator for `find_table_sections` and leaves the locator
state unchanged (it does not close the open section there); only the service's
`_find_section_end` ends the bonds section at the first row at or after its
scan start that is fully blank, contains "Итого", or starts a new "Сведения о
ценных бумагах" section. -/
theorem terminator_and_blank_row_behaviour :
    (∀ (df : Grid) (i : Nat) (l : String) (s : Nat), i < df.length →
        (stateAt df i).current = some (l, s) →
        isHeaderRow df i = false → isTermRow df i = true →
        (l, s, i - 1) ∈ find_table_sections df ∧ (stateAt df (i + 1)).current = none)
  ∧ (∀ (df : Grid) (st : LocState) (i : Nat),
        isBlankRow df i = true → locStep df st i = st)
  ∧ (∀ (df : Grid) (start i : Nat), start ≤ i → i < df.length →
        sectionEndCond df i = true →
        (∀ k, start ≤ k → k < i → sectionEndCond df k = false) →
        findSectionEndFrom df start = i) := by
  refine ⟨?_, ?_, ?_⟩
  · intro df i l s hi hc hh ht
    have hstep : stateAt df (i + 1)
        = { current := none, sections := (stateAt df i).sections ++ [(l, s, i - 1)] } := by
      rw [stateAt_succ]
      exact locStep_term hh ht hc
    have hmem : (l, s, i - 1) ∈ (stateAt df (i + 1)).sections := by
      rw [hstep]
      exact List.mem_append_right _ (List.mem_singleton_self _)
    have hn : stateAt df df.length
        = locRun df (stateAt df (i + 1)) (List.range' (i + 1) (df.length - (i + 1))) :=
      (locRun_stateAt_to df (i + 1) df.length (by omega)).symm
    constructor
    · rw [find_table_sections_eq_flush, hn]
      exact mem_final_of_mem_sections hmem
    · rw [hstep]
  · intro df st i h
    exact locStep_skip st (blankRow_not_header h) (blankRow_not_term h)
  · intro df start i h1 h2 h3 h4
    have hgen : ∀ d st2, st2 ≤ i → i - st2 = d →
        (∀ k, st2 ≤ k → k < i → sectionEndCond df k = false) →
        findSectionEndFrom df st2 = i := by
      intro d
      induction d with
      | zero =>
        intro st2 hle hd hnone
        have heq : st2 = i := by omega
        subst heq
        unfold findSectionEndFrom
        rw [dif_pos h2, if_pos h3]
      | succ n ih =>
        intro st2 hle hd hnone
        have hlt : st2 < i := by omega
        have hcond : sectionEndCond df st2 = false := hnone st2 (le_refl _) hlt
        unfold findSectionEndFrom
        rw [dif_pos (show st2 < df.length by omega), if_neg (by simp [hcond])]
        exact ih (st2 + 1) (by omega) (by omega) (fun k hk1 hk2 => hnone k (by omega) hk2)
    exact hgen (i - start) start h1 rfl h4

/-- Witness for the amended C5 at concrete grids: the terminator at row 2 of
[Эмитент, AAA, Итого по разделу 1] emits the span ("Unknown", 1, 1) and resets
the state; a blank row leaves the locator state unchanged; the bonds-section
scan of [A, blank] ends at the blank row 1. -/
theorem terminator_and_blank_row_behaviour_witness :
    (("Unknown", 1, 1)
        ∈ find_table_sections [[some "Эмитент"], [some "AAA"], [some "Итого по разделу 1"]]
      ∧ (stateAt [[some "Эмитент"], [some "AAA"], [some "Итого по разделу 1"]] 3).current = none)
  ∧ locStep [[some "Эмитент"], [some "A"], [none], [some "B"]]
      { current := some ("Unknown", 1), sections := [] } 2
      = { current := some ("Unknown", 1), sections := [] }
  ∧ findSectionEndFrom [[some "A"], [none]] 0 = 1 :=
  ⟨terminator_and_blank_row_behaviour.1
      [[some "Эмитент"], [some "AAA"], [some "Итого по разделу 1"]] 2 "Unknown" 1
      (by decide) (by decide) (by decide) (by decide),
   terminator_and_blank_row_behaviour.2.1
      [[some "Эмитент"], [some "A"], [none], [some "B"]]
      { current := some ("Unknown", 1), sections := [] } 2 (by decide),
   terminator_and_blank_row_behaviour.2.2 [[some "A"], [none]] 0 1
      (by decide) (by decide) (by decide)
      (by
        intro k hk1 hk2
        have hk : k = 0 := by omega
        subst hk
        decide)⟩

/-- C5 counterexample: in `find_table_sections` a fully blank row does not
close the open section: on [Эмитент, A, blank, B] the span produced is
("Unknown", 1, 3), extending past the blank row 2 instead of ending before
it. -/
theorem blank_row_does_not_close_counterexample :
    isBlankRow [[some "Эмитент"], [some "A"], [none], [some "B"]] 2 = true
    ∧ find_table_sections [[some "Эмитент"], [some "A"], [none], [some "B"]]
        = [("Unknown", 1, 3)]
    ∧ (3 : Nat) ≠ 1 :=
  ⟨by decide, by decide, by omega⟩

theorem labelLoopFuel_eq_find (df : Grid) : ∀ (d j : Nat),
    labelLoopFuel df d j =
      (match (List.range' j d).find? (goodLabelCell df) with
       | some k => stripQuotes (pyStrip (cellStr df k))
       | none => "Unknown") := by
  intro d
  induction d with
  | zero => intro j; rfl
  | succ n ih =>
    intro j
    rw [show List.range' j (n + 1) = j :: List.range' (j + 1) n from rfl]
    unfold labelLoopFuel
    by_cases hg : goodLabelCell df j = true
    · rw [if_pos hg, List.find?_cons_of_pos _ hg]
    · rw [Bool.not_eq_true] at hg
      rw [if_neg (by simp [hg]), List.find?_cons_of_neg _ (by simp [hg])]
      exact ih (j + 1)

/-- Modelled from the amended claim, for comparison with `inferLabel`: the label
is the stripped text of the cell directly above the header marker whenever that
is non-blank (with no header/total filtering), and otherwise the FIRST
qualifying cell of the window rows i-3 .. i-1 in top-down order (i.e. the
farthest, not the nearest); "Unknown" when nothing qualifies. -/
def label_amended (df : Grid) (i : Nat) : String :=
  if i = 0 then "Unknown"
  else if pyStrip (cellStr df (i - 1)) ≠ "" then stripQuotes (pyStrip (cellStr df (i - 1)))
  else
    match (List.range' (i - 3) (i - (i - 3))).find? (goodLabelCell df) with
    | some k => stripQuotes (pyStrip (cellStr df k))
    | none => "Unknown"

/-- C4 (amended): the label of a newly opened section is the stripped first-cell
text of the row immediately above the header marker whenever that text is
non-blank — even when it is a header token or starts with "Итого" — and only
when that row is blank does the locator search the window of the 3 rows above,
top-down (farthest first), for a non-empty first cell that is not a header
token and does not start with "Итого"; if none qualifies the label is
"Unknown"; one pair of enclosing double quotes is stripped. -/
theorem label_inference_amended (df : Grid) (i : Nat) :
    inferLabel df i = label_amended df i := by
  unfold inferLabel label_amended
  by_cases hi : i = 0
  · rw [if_pos hi, if_pos hi]
  · rw [if_neg hi, if_neg hi]
    by_cases hp : pyStrip (cellStr df (i - 1)) = ""
    · rw [if_neg (by
        simp only [Bool.and_eq_true, bne_iff_ne]
        intro hcon
        exact hcon.2 hp)]
      rw [if_neg (fun hcon => hcon hp)]
      exact labelLoopFuel_eq_find df (i - (i - 3)) (i - 3)
    · have hs : cellStr df (i - 1) ≠ "" := by
        intro h0
        apply hp
        rw [h0]
        rfl
      rw [if_pos (show (cellStr df (i - 1) != "" && pyStrip (cellStr df (i - 1)) != "") = true by
        simp only [Bool.and_eq_true, bne_iff_ne]
        exact ⟨hs, hp⟩)]
      rw [if_pos hp]

/-- C4 counterexample: the row directly above a header marker is used as label
even when it starts with the "total" phrase ("Итого"), and the fallback window
picks the farthest qualifying row, not the nearest: rows 0 and 1 both qualify
below, and row 0 ("Раздел A") wins over the nearer row 1 ("Раздел B"). -/
theorem label_inference_counterexample :
    inferLabel [[some "Итого по разделу 1"], [some "Эмитент"]] 1 = "Итого по разделу 1"
    ∧ pyStartsWith "Итого" "Итого по разделу 1" = true
    ∧ inferLabel [[some "Раздел A"], [some "Раздел B"], [none], [some "Эмитент"]] 3 = "Раздел A"
    ∧ goodLabelCell [[some "Раздел A"], [some "Раздел B"], [none], [some "Эмитент"]] 1 = true
    ∧ "Раздел A" ≠ "Раздел B" :=
  ⟨by decide, by decide, by decide, by decide, by decide⟩

theorem locRun_no_header (df : Grid) (idxs : List Nat)
    (h : ∀ k ∈ idxs, isHeaderRow df k = false) :
    locRun df { current := none, sections := [] } idxs
      = { current := none, sections := [] } := by
  induction idxs with
  | nil => rfl
  | cons i tl ih =>
    rw [locRun_cons]
    have hstep : locStep df { current := none, sections := [] } i
        = { current := none, sections := [] } := by
      by_cases ht : isTermRow df i = true
      · simp [locStep, h i (List.mem_cons_self i tl), ht]
      · rw [Bool.not_eq_true] at ht
        exact locStep_skip _ (h i (List.mem_cons_self i tl)) ht
    rw [hstep]
    exact ih (fun k hk => h k (List.mem_cons_of_mem i hk))

/-- C9 (amended): a grid with no header-marker row yields an empty span list,
and the CSV merge utility (`merge_csv_tables`) then reports the "no sections
found" error rather than crashing.  The broker statement importer raises no
such error: its extraction keys on the "Сведения о ценных бумагах" marker
rather than the "Эмитент" header marker, so a header-marker-free grid can
still parse successfully — with zero positions on [["Привет"]] (see the
counterexample), or even with positions when a section marker and a valid bond
row are present (see `headerless_bond_section_parses_one_position`). -/
theorem no_header_rows_merge_error (df : Grid)
    (h : ∀ i, i < df.length → isHeaderRow df i = false) :
    find_table_sections df = [] ∧ merge_csv_tables df = Except.error merge_error_msg := by
  have hempty : find_table_sections df = [] := by
    rw [find_table_sections_eq_flush]
    unfold stateAt
    rw [locRun_no_header df _ (fun k hk => h k (List.mem_range.mp hk))]
    rfl
  refine ⟨hempty, ?_⟩
  unfold merge_csv_tables
  rw [if_pos hempty]

/-- Witness for the amended C9 on the one-row grid [["Привет"]]. -/
theorem no_header_rows_merge_error_witness :
    find_table_sections [[some "Привет"]] = []
    ∧ merge_csv_tables [[some "Привет"]] = Except.error merge_error_msg :=
  no_header_rows_merge_error [[some "Привет"]] (by
    intro i hi
    have hlen : List.length [[some (String.mk ['П', 'р', 'и', 'в', 'е', 'т'])]] = 1 := rfl
    rw [hlen] at hi
    have hz : i = 0 := by omega
    subst hz
    decide)

/-- C9 counterexample: on the headerless grid [["Привет"]] the broker statement
importer does not produce the "no sections found" error: the parse succeeds and
returns a statement with zero positions and account number "UNKNOWN",
contradicting the claim that parsing a headerless statement yields
`ParseError("no sections found")`. -/
theorem headerless_grid_parses_successfully_counterexample :
    parse_statement [[some "Привет"]]
      = { account_number := "UNKNOWN", positions := [], statement_date := none }
    ∧ (parse_statement [[some "Привет"]]).positions.length = 0 :=
  ⟨by decide, by decide⟩

/-- A grid with no "Эмитент" header-marker row but with the service's
"Сведения о ценных бумагах" section marker and one valid bond row. -/
def bondSectionGrid : Grid :=
  [[some "Сведения о ценных бумагах"],
   [some "Газпром", some "облигация", some "GAZP", some "RU000A0JXQ93",
    some "RUB", some "10"]]

/-- Supporting fact for C9's amendment scope: the broker statement importer
does not consult the "Эмитент" header marker, so a grid with no header-marker
row anywhere can still parse to a statement with one position (here via the
bonds pass keyed on "Сведения о ценных бумагах"). -/
theorem headerless_bond_section_parses_one_position :
    (∀ i, i < bondSectionGrid.length → isHeaderRow bondSectionGrid i = false)
    ∧ (parse_statement bondSectionGrid).positions
        = [{ issuer := "Газпром", security_type := "облигация", trading_code := "GAZP",
             isin := "RU000A0JXQ93", currency := some "RUB", quantity := 10 }] := by
  constructor
  · intro i hi
    have hlen : bondSectionGrid.length = 2 := rfl
    rw [hlen] at hi
    have hcases : i = 0 ∨ i = 1 := by omega
    rcases hcases with hz | ho
    · subst hz; decide
    · subst ho; decide
  · have hend : findSectionEndFrom bondSectionGrid 2 = 2 := by
      unfold findSectionEndFrom
      rw [dif_neg (by decide)]
      rfl
    have hb : extract_bonds bondSectionGrid
        = [{ issuer := "Газпром", security_type := "облигация", trading_code := "GAZP",
             isin := "RU000A0JXQ93", currency := some "RUB", quantity := 10 }] := by
      unfold extract_bonds
      rw [show find_section_start bondSectionGrid "Сведения о ценных бумагах" = some 0 from rfl]
      show (List.range' (0 + 1) (findSectionEndFrom bondSectionGrid (0 + 2) - (0 + 1))).filterMap _ = _
      rw [show (0 : Nat) + 2 = 2 from rfl, hend]
      decide
    have hs : extract_stocks_and_etfs bondSectionGrid = [] := by decide
    show extract_positions bondSectionGrid = _
    unfold extract_positions
    rw [hb, hs]
    rfl
